import Mathlib

/-!
Verification development for the sun widget library.

This file gives a shallow embedding, in Lean, of the button state machines and
option-validation code of the repository, and proves properties about them.

Embedded components and their sources:
* PushButtonModel          — src/js/buttons/RoundToggleButton.js, lines 168-313
* StickyToggleButtonModel  — src/js/buttons/RectangularButton.js, lines 661-791
* ToggleButtonModel (experimental) — src/unnamed/part_002
* RectangularButton appearance strategies — src/js/buttons/RectangularButton.js,
  lines 197-490
* Construction assertions  — src/js/buttons/RectangularButton.js lines 104-106,
  src/js/Slider.js lines 105-106, src/js/ComboBox.js line 106

Some collaborators of these classes belong to the repository but are not among
the provided sources (ButtonModel, CallbackTimer, PushButtonInteractionStateProperty,
ButtonInteractionState); those are modelled from the specification and are marked
as such in their doc comments.  The axon Property system is an external
collaborator; its relevant behavior is that a linked listener runs on every
change of the property value (and not when it is set to the value it already
holds).
-/

namespace Sun

/-! ## PushButtonModel (src/js/buttons/RoundToggleButton.js, lines 168-313) -/

/-- Options of PushButtonModel taken from lines 192-201: fireOnDown
(fire on pointer down vs on pointer up over the button) and fireOnHold
(enable the repeated-fire timer).  The delay and interval only scale real time
and do not affect the event-level semantics modelled here. -/
structure PushOpts where
  fireOnDown : Bool
  fireOnHold : Bool
deriving DecidableEq, Repr

/-- State of a PushButtonModel.  The over, down and enabled booleans are the
properties supplied by ButtonModel.  Modelled from the spec: ButtonModel itself
is not among the provided sources; the spec describes it as tracking pointer
enter/exit/down/up and enabled/disabled as a boolean state set.  timerRunning
is the running flag of the fire-on-hold CallbackTimer (meaningful only when
fireOnHold is set). -/
structure PushState where
  over : Bool
  down : Bool
  enabled : Bool
  timerRunning : Bool
deriving DecidableEq, Repr

/-- Events driving a PushButtonModel: the three property setters, plus a timer
tick standing for one expiration of the fire-on-hold delay or interval. -/
inductive PushEv where
  | setOver : Bool → PushEv
  | setDown : Bool → PushEv
  | setEnabled : Bool → PushEv
  | tick : PushEv
deriving DecidableEq, Repr

/-- Body of the anonymous listener linked to downProperty (lines 233-253),
run after downProperty has changed; the second component counts the fire()
invocations performed by the listener.  Timer semantics modelled from the spec:
CallbackTimer is not among the provided sources; per the spec the timer repeats
fire() while held and is cancelled on release or disable, so start sets the
running flag, and stop(f) clears it, firing the pending callback once when f is
true and the timer was running (the call at line 258 carries the comment
"don't fire if we haven't already"). -/
def downListener (o : PushOpts) (s : PushState) : PushState × Nat :=
  if s.down then
    if s.enabled then
      ({ s with timerRunning := o.fireOnHold || s.timerRunning },
        if o.fireOnDown then 1 else 0)
    else (s, 0)
  else
    let f := !o.fireOnDown && s.over && s.enabled
    if o.fireOnHold then
      ({ s with timerRunning := false }, if f && s.timerRunning then 1 else 0)
    else
      (s, if f then 1 else 0)

/-- Body of the anonymous listener linked to enabledProperty (lines 256-260),
run after enabledProperty has changed: when the button has just been disabled,
stop the fire-on-hold timer without firing. -/
def enabledListener (o : PushOpts) (s : PushState) : PushState × Nat :=
  if !s.enabled && o.fireOnHold then ({ s with timerRunning := false }, 0)
  else (s, 0)

/-- One event step of a PushButtonModel.  A property setter that does not
change the value of the property notifies no listener.  A tick fires exactly
when the fire-on-hold timer exists and is running (modelled from the spec:
the timer repeats fire() at its interval while held). -/
def pushStep (o : PushOpts) (s : PushState) : PushEv → PushState × Nat
  | .setOver b => ({ s with over := b }, 0)
  | .setDown b =>
    if b = s.down then (s, 0) else downListener o { s with down := b }
  | .setEnabled b =>
    if b = s.enabled then (s, 0) else enabledListener o { s with enabled := b }
  | .tick => (s, if o.fireOnHold && s.timerRunning then 1 else 0)

/-- Run of a PushButtonModel over a list of events, accumulating the number of
fire() invocations. -/
def pushRun (o : PushOpts) : PushState → List PushEv → PushState × Nat
  | s, [] => (s, 0)
  | s, e :: es =>
    let p := pushStep o s e
    let q := pushRun o p.1 es
    (q.1, p.2 + q.2)

/-- The interaction-state enumeration of the push-button variant
{IDLE, OVER, PRESSED, DISABLED, DISABLED_PRESSED}.  Modelled from the spec:
the ButtonInteractionState enumeration is not among the provided sources. -/
inductive ButtonInteractionState where
  | IDLE
  | OVER
  | PRESSED
  | DISABLED
  | DISABLED_PRESSED
deriving DecidableEq, Repr

/-- Modelled from the spec: PushButtonInteractionStateProperty (required by
RectangularPushButton in src/unnamed/part_000 but not itself among the provided
sources) derives the interaction state from the current (down, over, enabled)
tuple alone: the DISABLED states hold while enabled is false, PRESSED while
pressed over the button, OVER while merely over it, and IDLE otherwise. -/
def pushInteractionState (over down enabled : Bool) : ButtonInteractionState :=
  if !enabled && down then .DISABLED_PRESSED
  else if !enabled then .DISABLED
  else if down && over then .PRESSED
  else if over then .OVER
  else .IDLE

/-- Interaction state derived from a PushButtonModel state: it reads only the
(over, down, enabled) tuple, never the timer flag. -/
def derivedState (s : PushState) : ButtonInteractionState :=
  pushInteractionState s.over s.down s.enabled

/-- addListener of PushButtonModel (lines 282-286): the listener is appended
only when indexOf does not find it, so a registered listener is not added
again.  Listeners are identified by a numeric id. -/
def addListener (listeners : List Nat) (listener : Nat) : List Nat :=
  if listeners.contains listener then listeners else listeners ++ [listener]

/-- removeListener of PushButtonModel (lines 293-298): indexOf followed by a
one-element splice removes the first occurrence when present and does nothing
otherwise. -/
def removeListener (listeners : List Nat) (listener : Nat) : List Nat :=
  listeners.erase listener

/-- A mutation of the registered-listener list that an invoked listener may
perform during fire(). -/
inductive ListenerAction where
  | add : Nat → ListenerAction
  | remove : Nat → ListenerAction
deriving DecidableEq, Repr

/-- Apply one listener-list mutation. -/
def applyListenerAction (ls : List Nat) : ListenerAction → List Nat
  | .add n => addListener ls n
  | .remove n => removeListener ls n

/-- fire of PushButtonModel (lines 304-311): the listener list is copied
(slice) and each element of the copy is invoked in order; an invoked listener
may mutate the registered list (interp gives the mutations each listener
performs when invoked).  Returns the sequence of invoked listeners and the
final registered list. -/
def fire (interp : Nat → List ListenerAction) (listeners : List Nat) :
    List Nat × List Nat :=
  listeners.foldl
    (fun acc l => (acc.1 ++ [l], (interp l).foldl applyListenerAction acc.2))
    ([], listeners)

/-! ## StickyToggleButtonModel (src/js/buttons/RectangularButton.js, lines 661-791) -/

/-- The two values between which a StickyToggleButtonModel toggles its bound
valueProperty (constructor parameters valueUp and valueDown, lines 698-700). -/
structure StickyModel (V : Type) where
  valueUp : V
  valueDown : V
deriving Repr, DecidableEq

/-- State of a StickyToggleButtonModel: the over/down/enabled booleans of
ButtonModel (modelled from the spec, as for PushState), the bound
valueProperty, and the private pressedWhileDownProperty guard (line 723). -/
structure StickyState (V : Type) where
  over : Bool
  down : Bool
  enabled : Bool
  value : V
  pressedWhileDown : Bool
deriving Repr, DecidableEq

/-- The toggleListener registered on toggledEmitter (lines 707-712): it sets
valueProperty to the other of the two values. -/
def toggleValue [DecidableEq V] (m : StickyModel V) (v : V) : V :=
  if v = m.valueUp then m.valueDown else m.valueUp

/-- Body of the downListener (lines 728-748), run after downProperty has
changed; the second component counts toggledEmitter emissions.  Inside the
listener, a toggle() also notifies the valuePropertyListener (lines 754-756),
which sets downProperty to (value === valueDown); on both paths where toggle()
runs here that assignment matches the value downProperty already holds, so the
nested notification is a no-op and is therefore not re-dispatched. -/
def stickyDownListener [DecidableEq V] (m : StickyModel V) (s : StickyState V) :
    StickyState V × Nat :=
  let p :=
    if s.enabled && s.over then
      let q :=
        if s.down && decide (s.value = m.valueUp) then
          ({ s with value := toggleValue m s.value, pressedWhileDown := false }, 1)
        else (s, 0)
      if !q.1.down && decide (q.1.value = m.valueDown) then
        if q.1.pressedWhileDown then
          ({ q.1 with value := toggleValue m q.1.value }, q.2 + 1)
        else ({ q.1 with pressedWhileDown := true }, q.2)
      else q
    else (s, 0)
  if !p.1.down && !p.1.over then ({ p.1 with pressedWhileDown := true }, p.2)
  else p

/-- Setting downProperty of a StickyToggleButtonModel: the linked downListener
(line 750) runs when the value changes. -/
def stickySetDown [DecidableEq V] (m : StickyModel V) (s : StickyState V)
    (b : Bool) : StickyState V × Nat :=
  if b = s.down then (s, 0) else stickyDownListener m { s with down := b }

/-- A concrete sticky model over booleans: valueUp is false, valueDown is
true. -/
def stickyBoolModel : StickyModel Bool := ⟨false, true⟩

/-- A concrete enabled, hovered, released sticky state holding valueUp, in a
gesture after the previous one (guard set). -/
def stickyStartUp : StickyState Bool :=
  { over := true, down := false, enabled := true, value := false,
    pressedWhileDown := true }

/-! ## Experimental ToggleButtonModel (src/unnamed/part_002) -/

/-- Options of the experimental ToggleButtonModel: toggleOnDown, which
defaults to false (part_002 lines 28-31). -/
structure ToggleOpts where
  toggleOnDown : Bool
deriving DecidableEq, Repr

/-- State of the experimental ToggleButtonModel: the buttonStateUp property
(true when the button is up/untoggled, part_002 line 34), plus the
interactionState value, the buttonEnabled flag and the tracked down/over
pointers.  Modelled from the spec where not in part_002: the experimental
ButtonModel supplying interactionState, buttonEnabled, downPointer and
overPointer is not among the provided sources; the spec describes it as
tracking pointer enter/exit/down/up and enabled/disabled. -/
structure ToggleState where
  buttonStateUp : Bool
  interactionState : String
  buttonEnabled : Bool
  downPointer : Option Nat
  overPointer : Option Nat
deriving DecidableEq, Repr

/-- The down handler of the experimental ToggleButtonModel (part_002 lines
38-48), for a down event from pointer p. -/
def toggleDown (o : ToggleOpts) (s : ToggleState) (p : Nat) : ToggleState :=
  let s1 := if s.downPointer = none then { s with downPointer := some p } else s
  if s1.buttonEnabled && s1.downPointer == some p then
    let s2 := { s1 with interactionState := "pressed" }
    if o.toggleOnDown then { s2 with buttonStateUp := !s2.buttonStateUp } else s2
  else s1

/-- The up handler of the experimental ToggleButtonModel (part_002 lines
50-63), for an up event from pointer p. -/
def toggleUp (o : ToggleOpts) (s : ToggleState) (p : Nat) : ToggleState :=
  let s1 :=
    if s.buttonEnabled then
      let s2 := { s with interactionState :=
        if s.overPointer = none then "idle"
        else if s.buttonStateUp then "pressed"
        else "over" }
      if !o.toggleOnDown && s2.downPointer == some p && s2.overPointer == some p
      then { s2 with buttonStateUp := !s2.buttonStateUp }
      else s2
    else s
  if s1.downPointer = some p then { s1 with downPointer := none } else s1

/-- The experimental ToggleButtonModel options as constructed by default. -/
def toggleDefaultOpts : ToggleOpts := ⟨false⟩

/-- A concrete enabled, idle experimental toggle state with pointer 0 over the
button and no pointer down. -/
def toggleStartState : ToggleState :=
  { buttonStateUp := true, interactionState := "idle", buttonEnabled := true,
    downPointer := none, overPointer := some 0 }

/-! ## Appearance strategies (src/js/buttons/RectangularButton.js, lines 197-490) -/

/-- The node whose paint an appearance strategy assigns: the button background
path, or the overlay added for the horizontal gradient (line 313). -/
inductive PaintTarget where
  | button
  | overlayForHorizGradient
deriving DecidableEq, Repr

/-- Which paint attribute of the node an assignment sets. -/
inductive PaintAttr where
  | fill
  | stroke
deriving DecidableEq, Repr

/-- The named paints of the two strategies (the local gradient, fill and
stroke variables of ThreeDAppearanceStrategy, lines 244-310, and
FlatAppearanceStrategy, lines 411-439; in the Flat strategy the local
disabledPressedFillVertical is an alias of disabledFill, line 420). -/
inductive PaintRef where
  | upFillVertical
  | overFillVertical
  | downFillVertical
  | disabledFillVertical
  | disabledPressedFillVertical
  | upFillHorizontal
  | overFillHorizontal
  | disabledFillHorizontal
  | enabledStroke
  | disabledStroke
  | upFill
  | overFill
  | downFill
  | disabledFill
deriving DecidableEq, Repr

/-- One paint assignment performed by updateAppearance (for example
button.fill = upFillVertical). -/
structure PaintAssignment where
  target : PaintTarget
  attr : PaintAttr
  paint : PaintRef
deriving DecidableEq, Repr

/-- The interaction-state values accepted by the updateAppearance switches;
matches the five members of the push-button interaction-state enumeration. -/
def isButtonInteractionStateValue (s : String) : Bool :=
  s == "IDLE" || s == "OVER" || s == "PRESSED" || s == "DISABLED" ||
    s == "DISABLED_PRESSED"

/-- updateAppearance of RectangularButton.ThreeDAppearanceStrategy (lines
329-368): a switch on the interaction state performing the listed paint
assignments in order, whose default case throws an Error. -/
def threeDUpdateAppearance (s : String) : Except String (List PaintAssignment) :=
  if s = "IDLE" then
    .ok [⟨.button, .fill, .upFillVertical⟩,
         ⟨.overlayForHorizGradient, .stroke, .enabledStroke⟩,
         ⟨.overlayForHorizGradient, .fill, .upFillHorizontal⟩]
  else if s = "OVER" then
    .ok [⟨.button, .fill, .overFillVertical⟩,
         ⟨.overlayForHorizGradient, .stroke, .enabledStroke⟩,
         ⟨.overlayForHorizGradient, .fill, .overFillHorizontal⟩]
  else if s = "PRESSED" then
    .ok [⟨.button, .fill, .downFillVertical⟩,
         ⟨.overlayForHorizGradient, .stroke, .enabledStroke⟩,
         ⟨.overlayForHorizGradient, .fill, .overFillHorizontal⟩]
  else if s = "DISABLED" then
    .ok [⟨.button, .fill, .disabledFillVertical⟩,
         ⟨.button, .stroke, .disabledStroke⟩,
         ⟨.overlayForHorizGradient, .stroke, .disabledStroke⟩,
         ⟨.overlayForHorizGradient, .fill, .disabledFillHorizontal⟩]
  else if s = "DISABLED_PRESSED" then
    .ok [⟨.button, .fill, .disabledPressedFillVertical⟩,
         ⟨.button, .stroke, .disabledStroke⟩,
         ⟨.overlayForHorizGradient, .stroke, .disabledStroke⟩,
         ⟨.overlayForHorizGradient, .fill, .disabledFillHorizontal⟩]
  else .error ("unsupported interactionState: " ++ s)

/-- updateAppearance of RectangularButton.FlatAppearanceStrategy (lines
446-477): a switch on the interaction state assigning the button's fill and
stroke, whose default case throws an Error. -/
def flatUpdateAppearance (s : String) : Except String (List PaintAssignment) :=
  if s = "IDLE" then
    .ok [⟨.button, .fill, .upFill⟩, ⟨.button, .stroke, .enabledStroke⟩]
  else if s = "OVER" then
    .ok [⟨.button, .fill, .overFill⟩, ⟨.button, .stroke, .enabledStroke⟩]
  else if s = "PRESSED" then
    .ok [⟨.button, .fill, .downFill⟩, ⟨.button, .stroke, .enabledStroke⟩]
  else if s = "DISABLED" then
    .ok [⟨.button, .fill, .disabledFill⟩, ⟨.button, .stroke, .disabledStroke⟩]
  else if s = "DISABLED_PRESSED" then
    .ok [⟨.button, .fill, .disabledPressedFillVertical⟩,
         ⟨.button, .stroke, .disabledStroke⟩]
  else .error ("unsupported interactionState: " ++ s)

/-- Whether an Except result is a success. -/
def exceptIsOk : Except String (List PaintAssignment) → Bool
  | .ok _ => true
  | .error _ => false

/-! ## Construction assertions (RectangularButton, Slider, ComboBox) -/

/-- The construction options of RectangularButton that its constructor
assertions and margin handling involve (defaults xAlign and yAlign center,
xMargin 8, yMargin 5; lines 51-52 and 70-71). -/
structure RectangularButtonOptions where
  xAlign : String
  yAlign : String
  xMargin : Int
  yMargin : Int
deriving DecidableEq, Repr

/-- The option assertions of the RectangularButton constructor (lines
104-106): xAlign must be one of X_ALIGN_VALUES = [center, left, right] and
yAlign one of Y_ALIGN_VALUES = [center, top, bottom]; no other option
assertion is made there, and the margins are not checked. -/
def rectangularButtonAssertionsPass (o : RectangularButtonOptions) : Bool :=
  (o.xAlign == "center" || o.xAlign == "left" || o.xAlign == "right")
    && (o.yAlign == "center" || o.yAlign == "top" || o.yAlign == "bottom")

/-- The construction options of Slider relevant to its option assertions. -/
structure SliderOptions where
  orientation : String
deriving DecidableEq, Repr

/-- The orientation assertion of the Slider constructor (src/js/Slider.js,
lines 105-106). -/
def sliderAssertionPasses (o : SliderOptions) : Bool :=
  o.orientation == "horizontal" || o.orientation == "vertical"

/-- The margin assertion of the ComboBox constructor (src/js/ComboBox.js,
line 106): xMargin and yMargin must be strictly positive. -/
def comboBoxMarginAssertionPasses (xMargin yMargin : Int) : Bool :=
  decide (xMargin > 0) && decide (yMargin > 0)

/-- RectangularButton options with a negative x margin and valid alignments. -/
def negativeMarginOptions : RectangularButtonOptions :=
  { xAlign := "center", yAlign := "center", xMargin := -1, yMargin := 5 }

/-! ## Theorems -/

/-- Helper for C10: folding the invocation loop of fire over the copied list
appends exactly the copied elements to the invoked sequence, whatever the
listeners do to the registered list. -/
theorem fire_foldl_fst (interp : Nat → List ListenerAction) :
    ∀ (copy invoked st : List Nat),
      (List.foldl
        (fun acc l => (acc.1 ++ [l], (interp l).foldl applyListenerAction acc.2))
        (invoked, st) copy).1 = invoked ++ copy := by
  intro copy
  induction copy with
  | nil => intro invoked st; simp
  | cons l ls ih => intro invoked st; simp [List.foldl, ih]

/-- C10: fire() invokes exactly the listeners registered at the moment fire()
begins, each exactly once, in registration order; mutations of the listener
list performed by invoked listeners do not change the invocation sequence of
that call. -/
theorem fire_invokes_snapshot (interp : Nat → List ListenerAction)
    (listeners : List Nat) : (fire interp listeners).1 = listeners := by
  simpa [fire] using fire_foldl_fst interp listeners [] listeners

/-- C9: addListener on an already registered listener is a no-op, addListener
never introduces a duplicate, and removeListener on an unregistered listener
is a no-op. -/
theorem listener_registration_noops (listeners : List Nat) (l : Nat) :
    (l ∈ listeners → addListener listeners l = listeners)
    ∧ (listeners.Nodup → (addListener listeners l).Nodup)
    ∧ (l ∉ listeners → removeListener listeners l = listeners) := by
  refine ⟨?_, ?_, ?_⟩
  · intro h
    simp [addListener, h]
  · intro h
    by_cases hm : l ∈ listeners
    · simpa [addListener, hm] using h
    · simp [addListener, hm, List.nodup_append, h]
  · intro h
    simp [removeListener, List.erase_of_not_mem h]

/-- Witness for C9 at concrete lists. -/
theorem listener_registration_noops_witness :
    addListener [1, 2] 1 = [1, 2] ∧ removeListener [1, 2] 3 = [1, 2] :=
  ⟨(listener_registration_noops [1, 2] 1).1 (by decide),
   (listener_registration_noops [1, 2] 3).2.2 (by decide)⟩

/-- C2: without fire-on-hold, a PushButtonModel with fireOnDown fires exactly
on each down-transition of downProperty while enabled, and with fireOnDown
false it fires exactly on an up-transition with the pointer over the button
and the button enabled. -/
theorem pushButtonModel_fires_exactly_on_transitions
    (o : PushOpts) (s : PushState) (e : PushEv) (hh : o.fireOnHold = false) :
    (pushStep o s e).2 =
      if o.fireOnDown = true then
        if e = PushEv.setDown true ∧ s.down = false ∧ s.enabled = true
        then 1 else 0
      else
        if e = PushEv.setDown false ∧ s.down = true ∧ s.over = true
            ∧ s.enabled = true
        then 1 else 0 := by
  rcases o with ⟨fd, fh⟩
  have h1 : fh = false := hh
  subst h1
  rcases s with ⟨ov, dn, en, tr⟩
  cases e with
  | setOver b => revert fd ov dn en tr b; decide
  | setDown b => revert fd ov dn en tr b; decide
  | setEnabled b => revert fd ov dn en tr b; decide
  | tick => revert fd ov dn en tr; decide

/-- Witness for C2: with fireOnDown, a down-transition while enabled fires
exactly once. -/
theorem pushButtonModel_fires_witness :
    (pushStep ⟨true, false⟩ ⟨false, false, true, false⟩ (.setDown true)).2 = 1 := by
  have h := pushButtonModel_fires_exactly_on_transitions
    ⟨true, false⟩ ⟨false, false, true, false⟩ (.setDown true) rfl
  simpa using h

/-- Helper for C1: with fire-on-hold, a stopped timer stays stopped and
nothing fires across any event other than a press. -/
theorem pushQuietStep (o : PushOpts) (s : PushState) (e : PushEv)
    (hh : o.fireOnHold = true) (ht : s.timerRunning = false)
    (he : e ≠ PushEv.setDown true) :
    (pushStep o s e).2 = 0 ∧ (pushStep o s e).1.timerRunning = false := by
  rcases o with ⟨fd, fh⟩
  have h1 : fh = true := hh
  subst h1
  rcases s with ⟨ov, dn, en, tr⟩
  have h2 : tr = false := ht
  subst h2
  cases e with
  | setOver b => revert fd ov dn en b; decide
  | setDown b =>
    cases b
    · revert fd ov dn en; decide
    · exact absurd rfl he
  | setEnabled b => revert fd ov dn en b; decide
  | tick => revert fd ov dn en; decide

/-- Helper for C1: with fire-on-hold and the timer stopped, a run containing
no press fires nothing. -/
theorem pushQuietRun (o : PushOpts) (hh : o.fireOnHold = true) :
    ∀ (evs : List PushEv) (s : PushState), s.timerRunning = false →
      PushEv.setDown true ∉ evs → (pushRun o s evs).2 = 0 := by
  intro evs
  induction evs with
  | nil => intro s _ _; rfl
  | cons e es ih =>
    intro s ht hn
    have hne : e ≠ PushEv.setDown true := by
      intro h
      exact hn (h ▸ List.mem_cons_self e es)
    obtain ⟨h0, h1⟩ := pushQuietStep o s e hh ht hne
    have hn2 : PushEv.setDown true ∉ es := fun h => hn (List.mem_cons_of_mem _ h)
    simp [pushRun, h0, ih (pushStep o s e).1 h1 hn2]

/-- C1: for a PushButtonModel with fireOnHold, when enabledProperty
transitions to false while the button is held down, the hold timer is stopped
and the disable itself fires nothing; afterwards no fire() occurs at all (in
particular none from timer ticks) until a new press. -/
theorem pushButtonModel_disable_stops_hold_timer
    (o : PushOpts) (s : PushState)
    (hHold : o.fireOnHold = true) (hEn : s.enabled = true) (hDown : s.down = true) :
    ((pushStep o s (.setEnabled false)).1.timerRunning = false
      ∧ (pushStep o s (.setEnabled false)).2 = 0)
    ∧ ∀ evs : List PushEv, PushEv.setDown true ∉ evs →
        (pushRun o (pushStep o s (.setEnabled false)).1 evs).2 = 0 := by
  have hstep : (pushStep o s (.setEnabled false)).1.timerRunning = false
      ∧ (pushStep o s (.setEnabled false)).2 = 0 := by
    rcases o with ⟨fd, fh⟩
    have h1 : fh = true := hHold
    subst h1
    rcases s with ⟨ov, dn, en, tr⟩
    have h2 : en = true := hEn
    subst h2
    revert fd ov dn tr; decide
  exact ⟨hstep, fun evs hn => pushQuietRun o hHold evs _ hstep.1 hn⟩

/-- Witness for C1: disabling a held button with the hold timer running stops
the timer, and a following tick-and-release sequence fires nothing. -/
theorem pushButtonModel_disable_witness :
    (pushStep ⟨false, true⟩ ⟨true, true, true, true⟩ (.setEnabled false)).1.timerRunning = false
    ∧ (pushRun ⟨false, true⟩
        (pushStep ⟨false, true⟩ ⟨true, true, true, true⟩ (.setEnabled false)).1
        [PushEv.tick, PushEv.setDown false, PushEv.tick]).2 = 0 := by
  have h := pushButtonModel_disable_stops_hold_timer
    ⟨false, true⟩ ⟨true, true, true, true⟩ rfl rfl rfl
  exact ⟨h.1.1, h.2 [PushEv.tick, PushEv.setDown false, PushEv.tick] (by decide)⟩

/-- C3: the derived interaction state is a pure function of the current
(over, down, enabled) tuple: any two event histories ending in the same tuple
derive the same state (independently of the histories and of the timer flag),
and re-enabling recomputes the state from the current over/down values with no
further pointer event. -/
theorem pushInteractionState_pure_of_tuple :
    (∀ (o1 o2 : PushOpts) (s1 s2 : PushState) (h1 h2 : List PushEv),
      (pushRun o1 s1 h1).1.over = (pushRun o2 s2 h2).1.over →
      (pushRun o1 s1 h1).1.down = (pushRun o2 s2 h2).1.down →
      (pushRun o1 s1 h1).1.enabled = (pushRun o2 s2 h2).1.enabled →
      derivedState (pushRun o1 s1 h1).1 = derivedState (pushRun o2 s2 h2).1)
    ∧ (∀ (o : PushOpts) (s : PushState), s.enabled = false →
        derivedState (pushStep o s (.setEnabled true)).1
          = pushInteractionState s.over s.down true) := by
  constructor
  · intro o1 o2 s1 s2 h1 h2 ho hd he
    unfold derivedState
    rw [ho, hd, he]
  · intro o s hs
    rcases o with ⟨fd, fh⟩
    rcases s with ⟨ov, dn, en, tr⟩
    have h2 : en = false := hs
    subst h2
    revert fd fh ov dn tr; decide

/-- Witness for C3: two different histories ending in the same tuple derive
the same state, and a disabled hovered button re-derives its state on
re-enable. -/
theorem pushInteractionState_pure_witness :
    derivedState (pushRun ⟨false, false⟩ ⟨false, false, true, false⟩
        [PushEv.setOver true]).1
      = derivedState (pushRun ⟨true, false⟩ ⟨true, false, true, false⟩ []).1
    ∧ derivedState
        (pushStep ⟨false, false⟩ ⟨true, false, false, false⟩ (.setEnabled true)).1
      = pushInteractionState true false true :=
  ⟨pushInteractionState_pure_of_tuple.1 ⟨false, false⟩ ⟨true, false⟩
      ⟨false, false, true, false⟩ ⟨true, false, true, false⟩
      [PushEv.setOver true] [] rfl rfl rfl,
   pushInteractionState_pure_of_tuple.2 ⟨false, false⟩ ⟨true, false, false, false⟩ rfl⟩

/-- C4: for an enabled, hovered StickyToggleButtonModel, a press-release cycle
beginning at valueUp toggles the bound property exactly once, ending at
valueDown; a press-release cycle beginning at valueDown, in a gesture after
the one that produced the down value (guard flag set), toggles exactly once,
ending at valueUp. -/
theorem stickyToggle_press_release_cycles {V : Type} [DecidableEq V]
    (m : StickyModel V) (s : StickyState V)
    (hne : m.valueUp ≠ m.valueDown)
    (hen : s.enabled = true) (hov : s.over = true) (hdn : s.down = false) :
    (s.value = m.valueUp →
      ((stickySetDown m (stickySetDown m s true).1 false).1.value = m.valueDown
        ∧ (stickySetDown m s true).2
            + (stickySetDown m (stickySetDown m s true).1 false).2 = 1))
    ∧ (s.value = m.valueDown → s.pressedWhileDown = true →
      ((stickySetDown m (stickySetDown m s true).1 false).1.value = m.valueUp
        ∧ (stickySetDown m s true).2
            + (stickySetDown m (stickySetDown m s true).1 false).2 = 1)) := by
  rcases s with ⟨ov, dn, en, v, pwd⟩
  have h1 : en = true := hen
  have h2 : ov = true := hov
  have h3 : dn = false := hdn
  subst h1; subst h2; subst h3
  constructor
  · intro hv
    have h4 : v = m.valueUp := hv
    subst h4
    simp [stickySetDown, stickyDownListener, toggleValue, hne, Ne.symm hne]
  · intro hv hp
    have h4 : v = m.valueDown := hv
    have h5 : pwd = true := hp
    subst h4; subst h5
    simp [stickySetDown, stickyDownListener, toggleValue, hne, Ne.symm hne]

/-- Witness for C4: both press-release cycles over the boolean sticky model. -/
theorem stickyToggle_press_release_cycles_witness :
    ((stickySetDown stickyBoolModel
        (stickySetDown stickyBoolModel stickyStartUp true).1 false).1.value
      = stickyBoolModel.valueDown)
    ∧ ((stickySetDown stickyBoolModel
        (stickySetDown stickyBoolModel
          { over := true, down := false, enabled := true, value := true,
            pressedWhileDown := true } true).1 false).1.value
      = stickyBoolModel.valueUp) :=
  ⟨((stickyToggle_press_release_cycles stickyBoolModel stickyStartUp
      (by decide) rfl rfl rfl).1 rfl).1,
   ((stickyToggle_press_release_cycles stickyBoolModel
      { over := true, down := false, enabled := true, value := true,
        pressedWhileDown := true }
      (by decide) rfl rfl rfl).2 rfl rfl).1⟩

/-- Counterexample for C5: from valueUp, the press transition alone already
flips the bound value to valueDown, so the value does not flip only on full
press-release cycles. -/
theorem stickyToggle_press_flips_counterexample :
    stickyStartUp.value = stickyBoolModel.valueUp
    ∧ (stickySetDown stickyBoolModel stickyStartUp true).1.value
        = stickyBoolModel.valueDown
    ∧ stickyBoolModel.valueUp ≠ stickyBoolModel.valueDown := by decide

/-- C5 (amended): for an enabled, hovered StickyToggleButtonModel, the
up-to-down flip happens immediately on the press transition (which also
clears the guard flag); the release of that same gesture does not toggle and
only arms the guard; and a release in a later gesture (guard set) performs
the down-to-up flip. -/
theorem stickyToggle_flip_timing_amended {V : Type} [DecidableEq V]
    (m : StickyModel V) (s : StickyState V)
    (hne : m.valueUp ≠ m.valueDown)
    (hen : s.enabled = true) (hov : s.over = true) :
    (s.down = false → s.value = m.valueUp →
      (stickySetDown m s true).1.value = m.valueDown
      ∧ (stickySetDown m s true).1.pressedWhileDown = false)
    ∧ (s.down = true → s.value = m.valueDown → s.pressedWhileDown = false →
      (stickySetDown m s false).2 = 0
      ∧ (stickySetDown m s false).1.value = m.valueDown
      ∧ (stickySetDown m s false).1.pressedWhileDown = true)
    ∧ (s.down = true → s.value = m.valueDown → s.pressedWhileDown = true →
      (stickySetDown m s false).1.value = m.valueUp) := by
  rcases s with ⟨ov, dn, en, v, pwd⟩
  have h1 : en = true := hen
  have h2 : ov = true := hov
  subst h1; subst h2
  refine ⟨?_, ?_, ?_⟩
  · intro hd hv
    have h3 : dn = false := hd
    have h4 : v = m.valueUp := hv
    subst h3; subst h4
    simp [stickySetDown, stickyDownListener, toggleValue, hne, Ne.symm hne]
  · intro hd hv hp
    have h3 : dn = true := hd
    have h4 : v = m.valueDown := hv
    have h5 : pwd = false := hp
    subst h3; subst h4; subst h5
    simp [stickySetDown, stickyDownListener, toggleValue, hne, Ne.symm hne]
  · intro hd hv hp
    have h3 : dn = true := hd
    have h4 : v = m.valueDown := hv
    have h5 : pwd = true := hp
    subst h3; subst h4; subst h5
    simp [stickySetDown, stickyDownListener, toggleValue, hne, Ne.symm hne]

/-- Witness for the amended C5 over the boolean sticky model. -/
theorem stickyToggle_flip_timing_witness :
    (stickySetDown stickyBoolModel stickyStartUp true).1.value
        = stickyBoolModel.valueDown
    ∧ (stickySetDown stickyBoolModel
        { over := true, down := true, enabled := true, value := true,
          pressedWhileDown := false } false).2 = 0
    ∧ (stickySetDown stickyBoolModel
        { over := true, down := true, enabled := true, value := true,
          pressedWhileDown := true } false).1.value = stickyBoolModel.valueUp :=
  ⟨((stickyToggle_flip_timing_amended stickyBoolModel stickyStartUp
      (by decide) rfl rfl).1 rfl rfl).1,
   ((stickyToggle_flip_timing_amended stickyBoolModel
      { over := true, down := true, enabled := true, value := true,
        pressedWhileDown := false }
      (by decide) rfl rfl).2.1 rfl rfl rfl).1,
   (stickyToggle_flip_timing_amended stickyBoolModel
      { over := true, down := true, enabled := true, value := true,
        pressedWhileDown := true }
      (by decide) rfl rfl).2.2 rfl rfl rfl⟩

/-- Counterexample for C6: with the default toggleOnDown = false, a down event
on an enabled experimental ToggleButtonModel sets the interaction state to
pressed without flipping the bound buttonStateUp property, so a PRESSED
down-transition does not flip the value. -/
theorem toggleButtonModel_no_flip_on_down_counterexample :
    (toggleDown toggleDefaultOpts toggleStartState 0).interactionState = "pressed"
    ∧ (toggleDown toggleDefaultOpts toggleStartState 0).buttonStateUp
        = toggleStartState.buttonStateUp := by decide

/-- C6 (amended): when the experimental ToggleButtonModel is constructed with
toggleOnDown = true, a matching down event on an enabled model flips the
bound buttonStateUp property immediately and shows the pressed state, while
the release reconciles the interaction state from the over pointer and the
value without flipping the property; with the default toggleOnDown = false,
a down event never flips the property, and the flip instead occurs on the
release whose pointer is both the down and the over pointer. -/
theorem toggleButtonModel_toggleOnDown_amended (s : ToggleState) (p : Nat)
    (hen : s.buttonEnabled = true) :
    (s.downPointer = none →
      (toggleDown ⟨true⟩ s p).buttonStateUp = !s.buttonStateUp
      ∧ (toggleDown ⟨true⟩ s p).interactionState = "pressed")
    ∧ ((toggleUp ⟨true⟩ s p).buttonStateUp = s.buttonStateUp
      ∧ (toggleUp ⟨true⟩ s p).interactionState =
          (if s.overPointer = none then "idle"
           else if s.buttonStateUp then "pressed" else "over"))
    ∧ ((toggleDown toggleDefaultOpts s p).buttonStateUp = s.buttonStateUp)
    ∧ (s.downPointer = some p → s.overPointer = some p →
        (toggleUp toggleDefaultOpts s p).buttonStateUp = !s.buttonStateUp) := by
  rcases s with ⟨up, ist, en, dp, op⟩
  have h1 : en = true := hen
  subst h1
  refine ⟨?_, ?_, ?_, ?_⟩
  · intro hdp
    have h2 : dp = none := hdp
    subst h2
    simp [toggleDown]
  · by_cases hdp2 : dp = some p <;>
      simp [toggleUp, hdp2]
  · by_cases hdp3 : dp = none
    · simp [toggleDown, toggleDefaultOpts, hdp3]
    · by_cases hdp4 : dp = some p <;>
        simp [toggleDown, toggleDefaultOpts, hdp3, hdp4]
  · intro hdp hop
    have h3 : dp = some p := hdp
    subst h3
    have h4 : op = some p := hop
    subst h4
    simp [toggleUp, toggleDefaultOpts]

/-- Witness for the amended C6 at concrete states and pointer: the
toggleOnDown variant flips on down and not on up, and the default variant
flips on the release whose pointer is both down and over. -/
theorem toggleButtonModel_toggleOnDown_witness :
    (toggleDown ⟨true⟩ toggleStartState 0).buttonStateUp = false
    ∧ (toggleUp ⟨true⟩ toggleStartState 0).buttonStateUp = true
    ∧ (toggleUp toggleDefaultOpts
        { buttonStateUp := true, interactionState := "pressed",
          buttonEnabled := true, downPointer := some 0,
          overPointer := some 0 } 0).buttonStateUp = false := by
  have h := toggleButtonModel_toggleOnDown_amended toggleStartState 0 rfl
  have h2 := toggleButtonModel_toggleOnDown_amended
    { buttonStateUp := true, interactionState := "pressed",
      buttonEnabled := true, downPointer := some 0, overPointer := some 0 }
    0 rfl
  exact ⟨((h.1 rfl).1).trans (by decide), (h.2.1.1).trans (by decide),
    (h2.2.2.2 rfl rfl).trans (by decide)⟩

/-- C7: for every interaction-state value outside the supported set, the
updateAppearance function of both the ThreeD and the Flat appearance
strategies throws (the switch default), and for every value inside the set
both succeed, assigning at least one fill and one stroke. -/
theorem appearance_strategies_states (s : String) :
    (exceptIsOk (threeDUpdateAppearance s) = isButtonInteractionStateValue s)
    ∧ (exceptIsOk (flatUpdateAppearance s) = isButtonInteractionStateValue s)
    ∧ (isButtonInteractionStateValue s = true →
        ∃ l1 l2, threeDUpdateAppearance s = .ok l1
          ∧ flatUpdateAppearance s = .ok l2
          ∧ (l1.any fun a => a.attr == PaintAttr.fill) = true
          ∧ (l1.any fun a => a.attr == PaintAttr.stroke) = true
          ∧ (l2.any fun a => a.attr == PaintAttr.fill) = true
          ∧ (l2.any fun a => a.attr == PaintAttr.stroke) = true) := by
  by_cases h1 : s = "IDLE"
  · subst h1
    exact ⟨by decide, by decide,
      fun _ => ⟨_, _, rfl, rfl, by decide, by decide, by decide, by decide⟩⟩
  by_cases h2 : s = "OVER"
  · subst h2
    exact ⟨by decide, by decide,
      fun _ => ⟨_, _, rfl, rfl, by decide, by decide, by decide, by decide⟩⟩
  by_cases h3 : s = "PRESSED"
  · subst h3
    exact ⟨by decide, by decide,
      fun _ => ⟨_, _, rfl, rfl, by decide, by decide, by decide, by decide⟩⟩
  by_cases h4 : s = "DISABLED"
  · subst h4
    exact ⟨by decide, by decide,
      fun _ => ⟨_, _, rfl, rfl, by decide, by decide, by decide, by decide⟩⟩
  by_cases h5 : s = "DISABLED_PRESSED"
  · subst h5
    exact ⟨by decide, by decide,
      fun _ => ⟨_, _, rfl, rfl, by decide, by decide, by decide, by decide⟩⟩
  refine ⟨?_, ?_, ?_⟩ <;>
    simp [threeDUpdateAppearance, flatUpdateAppearance, exceptIsOk,
      isButtonInteractionStateValue, h1, h2, h3, h4, h5]

/-- Witness for C7 at the PRESSED state. -/
theorem appearance_strategies_states_witness :
    ∃ l1 l2, threeDUpdateAppearance "PRESSED" = .ok l1
      ∧ flatUpdateAppearance "PRESSED" = .ok l2
      ∧ (l1.any fun a => a.attr == PaintAttr.fill) = true
      ∧ (l1.any fun a => a.attr == PaintAttr.stroke) = true
      ∧ (l2.any fun a => a.attr == PaintAttr.fill) = true
      ∧ (l2.any fun a => a.attr == PaintAttr.stroke) = true :=
  (appearance_strategies_states "PRESSED").2.2 rfl

/-- Counterexample for C8: a RectangularButton constructed with a negative
xMargin and valid alignments passes every option assertion of its
constructor, so negative margins do not fail fast there. -/
theorem negative_margin_passes_assertions :
    negativeMarginOptions.xMargin < 0
    ∧ rectangularButtonAssertionsPass negativeMarginOptions = true := by decide

/-- C8 (amended): RectangularButton asserts exactly that xAlign and yAlign
are members of their enumerations, Slider asserts exactly that orientation is
horizontal or vertical, and ComboBox asserts strictly positive margins (so
negative margins fail there); RectangularButton itself accepts negative
margins. -/
theorem construction_assertions_amended :
    (∀ o : RectangularButtonOptions,
      rectangularButtonAssertionsPass o = true ↔
        ((o.xAlign = "center" ∨ o.xAlign = "left" ∨ o.xAlign = "right")
          ∧ (o.yAlign = "center" ∨ o.yAlign = "top" ∨ o.yAlign = "bottom")))
    ∧ (∀ o : SliderOptions,
        sliderAssertionPasses o = true ↔
          (o.orientation = "horizontal" ∨ o.orientation = "vertical"))
    ∧ (∀ xMargin yMargin : Int, xMargin < 0 ∨ yMargin < 0 →
        comboBoxMarginAssertionPasses xMargin yMargin = false)
    ∧ (negativeMarginOptions.xMargin < 0
        ∧ rectangularButtonAssertionsPass negativeMarginOptions = true) := by
  refine ⟨?_, ?_, ?_, by decide⟩
  · intro o
    simp [rectangularButtonAssertionsPass]
    tauto
  · intro o
    simp [sliderAssertionPasses]
  · intro x y h
    simp only [comboBoxMarginAssertionPasses, Bool.and_eq_false_iff,
      decide_eq_false_iff_not, not_lt]
    omega

/-- Witness for the amended C8: a negative ComboBox margin fails its
assertion and a horizontal Slider passes its orientation assertion. -/
theorem construction_assertions_witness :
    comboBoxMarginAssertionPasses (-2) 4 = false
    ∧ sliderAssertionPasses ⟨"horizontal"⟩ = true :=
  ⟨construction_assertions_amended.2.2.1 (-2) 4 (Or.inl (by decide)),
   (construction_assertions_amended.2.1 ⟨"horizontal"⟩).mpr (Or.inl rfl)⟩

end Sun
